import Mathlib

/-!
Verification development for the `get_data` vessel-scraping repository.

The Python sources are shallowly embedded: JSON-decoded values become the
inductive `JVal` (with rational numbers standing for Python floats), scraper
record dictionaries become the structure `Record`, and each extractor or
dispatcher function becomes a Lean function over those types.  Browser and
network I/O (page loads, CDP logs, HTTP responses) is passed in explicitly as
data; a Python exception raised while acquiring such input is represented with
`Except`, mirroring the `try`/`except` blocks of the sources.
-/

namespace GetData

/-- A JSON-decoded Python value: `None`, `bool`, numbers (Python floats and
ints are both modelled as rationals, which is exact on every value the
sources manipulate), strings, lists and dicts (association lists in
insertion order, matching Python dict iteration order). -/
inductive JVal where
  | null : JVal
  | bool : Bool → JVal
  | num : ℚ → JVal
  | str : String → JVal
  | arr : List JVal → JVal
  | obj : List (String × JVal) → JVal

/-- Python truthiness (`bool(x)`): `None`, `False`, `0`, `""`, `[]` and
empty dicts are falsy, everything else is truthy. -/
def pyTruthy : JVal → Bool
  | .null => false
  | .bool b => b
  | .num q => !(decide (q = 0))
  | .str s => !(s == "")
  | .arr xs => !xs.isEmpty
  | .obj fs => !fs.isEmpty

/-- Whether a value is Python `None`. -/
def isNull : JVal → Bool
  | .null => true
  | _ => false

/-- Python `d.get(key)` on a dict: the first binding for `key`, else `None`. -/
def objGet : List (String × JVal) → String → JVal
  | [], _ => .null
  | (k, v) :: rest, key => if k == key then v else objGet rest key

/-- Python `key in d` on a dict. -/
def objHasKey : List (String × JVal) → String → Bool
  | [], _ => false
  | (k, _) :: rest, key => k == key || objHasKey rest key

/-- Python `d.get(key, default)`: the stored value (even if `None`) when the
key is present, the default otherwise. -/
def objGetD (fs : List (String × JVal)) (key : String) (d : JVal) : JVal :=
  if objHasKey fs key then objGet fs key else d

/-- Whitespace recognised by Python `str.strip()` on the sources' data. -/
def isWS (c : Char) : Bool :=
  c == ' ' || c == '\t' || c == '\n' || c == '\r'

/-- Python `str.strip()` on a character list. -/
def trimChars (cs : List Char) : List Char :=
  ((cs.dropWhile isWS).reverse.dropWhile isWS).reverse

/-- Lowercasing of a character list (`str.lower()`; the scraped keys are
ASCII). -/
def lowerChars (cs : List Char) : List Char :=
  cs.map Char.toLower

/-- Python `str.strip()`. -/
def pyStrip (s : String) : String :=
  String.mk (trimChars s.data)

/-- Python `str.lower()`. -/
def pyLower (s : String) : String :=
  String.mk (lowerChars s.data)

/-- Python `str.strip('"')`: remove all leading and trailing double quotes. -/
def stripQuotes (s : String) : String :=
  String.mk (((s.data.dropWhile (· == '"')).reverse.dropWhile (· == '"')).reverse)

/-- Whether `needle` occurs as a contiguous sublist of `hay`
(Python `needle in hay` on strings). -/
def listSub (needle : List Char) : List Char → Bool
  | [] => needle.isEmpty
  | c :: t => needle.isPrefixOf (c :: t) || listSub needle t

/-- Python substring test `needle in hay`. -/
def hasSub (hay needle : String) : Bool :=
  listSub needle.data hay.data

/-- Python `line.split(':', 1)` restricted to lines that contain a colon:
the characters before the first `':'` and those after it (`none` when the
line has no colon, matching the `':' in line` guard). -/
def splitAtColon : List Char → Option (List Char × List Char)
  | [] => none
  | ':' :: t => some ([], t)
  | c :: t =>
    match splitAtColon t with
    | some (a, b) => some (c :: a, b)
    | none => none

/-- Leading decimal digits of a character list, and the remainder. -/
def takeDigits : List Char → List Char × List Char
  | [] => ([], [])
  | c :: t =>
    if c.isDigit then
      let (d, r) := takeDigits t
      (c :: d, r)
    else ([], c :: t)

/-- Numeric value of a digit list. -/
def digitsToNat (cs : List Char) : ℕ :=
  cs.foldl (fun a c => 10 * a + (c.toNat - 48)) 0

/-- Python `float(s)` on the sign/digits/decimal-point strings the sources
produce (`[+-]?`, integer digits, optional fraction).  `none` models the
`ValueError` raised on any other string; scientific notation and the
infinities never occur in the scraped inputs and are likewise rejected. -/
def parseDecimal (cs : List Char) : Option ℚ :=
  let sr : ℚ × List Char :=
    match cs with
    | '+' :: t => (1, t)
    | '-' :: t => (-1, t)
    | _ => (1, cs)
  let (ip, r1) := takeDigits sr.2
  match r1 with
  | [] => if ip.isEmpty then none else some (sr.1 * (digitsToNat ip : ℚ))
  | '.' :: r2 =>
    let (fp, r3) := takeDigits r2
    if r3.isEmpty && !(ip.isEmpty && fp.isEmpty) then
      some (sr.1 * ((digitsToNat ip : ℚ) + (digitsToNat fp : ℚ) / (10 : ℚ) ^ fp.length))
    else none
  | _ => none

/-- Python `float(x)` on a JSON value: numbers pass through, booleans map to
0/1, strings are parsed, and `None`/lists/dicts raise (`none`). -/
def pyFloat : JVal → Option ℚ
  | .num q => some q
  | .bool b => some (if b then 1 else 0)
  | .str s => parseDecimal (trimChars s.data)
  | _ => none

/-- Rendering of a rational for `str()` (integers render like Python ints;
non-integers keep an exact fraction form, an inessential formatting
difference from CPython's float repr that no extracted field depends on). -/
def ratStr (q : ℚ) : String :=
  if q.den = 1 then toString q.num else toString q.num ++ "/" ++ toString q.den

/-- Python `str(x)` for the values the extractors stringify; container
reprs are abbreviated (no claim inspects them). -/
def pyStr : JVal → String
  | .null => "None"
  | .bool b => if b then "True" else "False"
  | .num q => ratStr q
  | .str s => s
  | .arr _ => "<list>"
  | .obj _ => "<dict>"

/-- The vessel record dictionary.  Union of the fields initialised by
`SeleniumMarineTrafficScraper.get_ship_details` (selenium_scraper.py lines
103-121) and `VesselFinderScraper.get_vessel_details` (vesselfinder_scraper.py
lines 192-215); every field holds an arbitrary Python value exactly as the
dicts do.  `coordsApi` is the `_coordinates_from_api` marker key, read with
`.get(..., False)`, hence it defaults to `bool false`. -/
structure Record where
  provider : JVal := .null
  mmsi : JVal := .null
  imo : JVal := .null
  name : JVal := .null
  callsign : JVal := .null
  type : JVal := .null
  lat : JVal := .null
  lon : JVal := .null
  speed : JVal := .null
  course : JVal := .null
  heading : JVal := .null
  draught : JVal := .null
  nav_status : JVal := .null
  destination : JVal := .null
  timestamp : JVal := .null
  comparison_id : JVal := .null
  data_source : JVal := .null
  length : JVal := .null
  width : JVal := .null
  flag : JVal := .null
  built : JVal := .null
  eta : JVal := .null
  coordsApi : JVal := .bool false

/-- The record with every field still `None` (the common core of both
scrapers' initial dicts, before the provider/identifier tags are filled). -/
def Record.init : Record := {}

/-- One key/value step of the field loop of
`VesselFinderScraper._parse_api_response` (vesselfinder_scraper.py lines
349-401): the `elif` chain over `key.lower()`, guarded by truthiness of the
current record entry.  The second component records whether the step raised
(only the unguarded `float(value)` conversions of the speed / course /
heading / draught / length / width branches can raise; the lat / lon branches
have their own inner `try`). -/
def parseField (key : String) (value : JVal) (r : Record) : Record × Bool :=
  let k := pyLower key
  if hasSub k "mmsi" && !pyTruthy r.mmsi then
    ({ r with mmsi := .str (pyStr value) }, false)
  else if hasSub k "imo" && !pyTruthy r.imo then
    ({ r with imo := .str (pyStr value) }, false)
  else if hasSub k "name" && !pyTruthy r.name then
    ({ r with name := .str (pyStr value) }, false)
  else if hasSub k "callsign" && !pyTruthy r.callsign then
    ({ r with callsign := .str (pyStr value) }, false)
  else if hasSub k "type" && !pyTruthy r.type then
    ({ r with type := .str (pyStr value) }, false)
  else if (k == "lat" || k == "latitude") && !pyTruthy r.lat then
    if pyTruthy value then
      match pyFloat value with
      | some q => ({ r with lat := .num (if 180 < |q| then q / 1000000 else q) }, false)
      | none => (r, false)
    else ({ r with lat := .null }, false)
  else if (k == "lon" || k == "lng" || k == "longitude") && !pyTruthy r.lon then
    if pyTruthy value then
      match pyFloat value with
      | some q => ({ r with lon := .num (if 180 < |q| then q / 1000000 else q) }, false)
      | none => (r, false)
    else ({ r with lon := .null }, false)
  else if hasSub k "speed" && !pyTruthy r.speed then
    if pyTruthy value then
      match pyFloat value with
      | some q => ({ r with speed := .num q }, false)
      | none => (r, true)
    else ({ r with speed := .null }, false)
  else if hasSub k "course" && !pyTruthy r.course then
    if pyTruthy value then
      match pyFloat value with
      | some q => ({ r with course := .num q }, false)
      | none => (r, true)
    else ({ r with course := .null }, false)
  else if hasSub k "heading" && !pyTruthy r.heading then
    if pyTruthy value then
      match pyFloat value with
      | some q => ({ r with heading := .num q }, false)
      | none => (r, true)
    else ({ r with heading := .null }, false)
  else if hasSub k "draught" && !pyTruthy r.draught then
    if pyTruthy value then
      match pyFloat value with
      | some q => ({ r with draught := .num q }, false)
      | none => (r, true)
    else ({ r with draught := .null }, false)
  else if hasSub k "destination" && !pyTruthy r.destination then
    ({ r with destination := .str (pyStr value) }, false)
  else if hasSub k "status" && !pyTruthy r.nav_status then
    ({ r with nav_status := .str (pyStr value) }, false)
  else if hasSub k "flag" && !pyTruthy r.flag then
    ({ r with flag := .str (pyStr value) }, false)
  else if hasSub k "length" && !pyTruthy r.length then
    if pyTruthy value then
      match pyFloat value with
      | some q => ({ r with length := .num q }, false)
      | none => (r, true)
    else ({ r with length := .null }, false)
  else if hasSub k "width" && !pyTruthy r.width then
    if pyTruthy value then
      match pyFloat value with
      | some q => ({ r with width := .num q }, false)
      | none => (r, true)
    else ({ r with width := .null }, false)
  else if hasSub k "built" && !pyTruthy r.built then
    ({ r with built := .str (pyStr value) }, false)
  else if hasSub k "eta" && !pyTruthy r.eta then
    ({ r with eta := .str (pyStr value) }, false)
  else (r, false)

/-- The `for key, value in data.items()` loop of `_parse_api_response`:
stops (second component `true`) as soon as one step raises, since the
exception propagates to the handler at the bottom of the function. -/
def parseFields : List (String × JVal) → Record → Record × Bool
  | [], r => (r, false)
  | (k, v) :: rest, r =>
    match parseField k v r with
    | (r', true) => (r', true)
    | (r', false) => parseFields rest r'

mutual

/-- `VesselFinderScraper._parse_api_response` (vesselfinder_scraper.py lines
344-413): on a dict, run the field loop, then recurse into each dict/list
value in insertion order; on a list, recurse into each item.  When the field
loop raises, the function-level `except` catches it, so the recursion pass of
that dict is skipped while mutations already made are kept. -/
def parseApiResponse : JVal → Record → Record
  | .obj fs, r =>
    (match parseFields fs r with
     | (r', true) => r'
     | (r', false) => parseChildren fs r')
  | .arr xs, r => parseItems xs r
  | _, r => r

/-- The `for value in data.values()` recursion pass of
`_parse_api_response` (lines 404-406). -/
def parseChildren : List (String × JVal) → Record → Record
  | [], r => r
  | (_, v) :: rest, r =>
    match v with
    | .obj fs => parseChildren rest (parseApiResponse (.obj fs) r)
    | .arr xs => parseChildren rest (parseApiResponse (.arr xs) r)
    | _ => parseChildren rest r

/-- The list branch of `_parse_api_response` (lines 408-410). -/
def parseItems : List JVal → Record → Record
  | [], r => r
  | v :: rest, r => parseItems rest (parseApiResponse v r)

end

/-- One entry of the `api_field_mapping` loop of
`SeleniumMarineTrafficScraper._extract_coordinates_from_api_response`
(selenium_scraper.py lines 976-994) for a numeric ship field: the proposed
new field value (`float` conversion failures are swallowed by the inner
`except`, leaving the current value). -/
def apiNumUpd (fs : List (String × JVal)) (key : String) (cur : JVal) : JVal :=
  if objHasKey fs key && !pyTruthy cur then
    let v := objGet fs key
    if isNull v then cur
    else
      match pyFloat v with
      | some q => .num q
      | none => cur
  else cur

/-- Same loop for the non-numeric fields (`navigationalStatus`,
`timestamp`): the raw value is stored when it is not `None`
(selenium_scraper.py lines 995-997). -/
def apiRawUpd (fs : List (String × JVal)) (key : String) (cur : JVal) : JVal :=
  if objHasKey fs key && !pyTruthy cur then
    let v := objGet fs key
    if isNull v then cur else v
  else cur

/-- Dict branch of `_extract_coordinates_from_api_response`
(selenium_scraper.py lines 955-997): `lat`/`lon` are stored
unconditionally (no already-set guard and no micro-degree division), the
`_coordinates_from_api` marker is set, then the other mapped fields are
filled through the guarded loop. -/
def coordsApiObj (fs : List (String × JVal)) (r : Record) : Record :=
  let r1 :=
    if objHasKey fs "lat" then
      match pyFloat (objGet fs "lat") with
      | some q => { r with lat := .num q, coordsApi := .bool true }
      | none => r
    else r
  let r2 :=
    if objHasKey fs "lon" then
      match pyFloat (objGet fs "lon") with
      | some q => { r1 with lon := .num q, coordsApi := .bool true }
      | none => r1
    else r1
  let r3 := { r2 with speed := apiNumUpd fs "speed" r2.speed }
  let r4 := { r3 with course := apiNumUpd fs "course" r3.course }
  let r5 := { r4 with heading := apiNumUpd fs "heading" r4.heading }
  let r6 := { r5 with draught := apiNumUpd fs "draught" r5.draught }
  let r7 := { r6 with nav_status := apiRawUpd fs "navigationalStatus" r6.nav_status }
  { r7 with timestamp := apiRawUpd fs "timestamp" r7.timestamp }

/-- List branch of `_extract_coordinates_from_api_response` (lines
999-1005): dict items are processed until both coordinates are truthy. -/
def coordsApiList : List JVal → Record → Record
  | [], r => r
  | v :: rest, r =>
    match v with
    | .obj fs =>
      let r' := coordsApiObj fs r
      if pyTruthy r'.lat && pyTruthy r'.lon then r' else coordsApiList rest r'
    | _ => coordsApiList rest r

/-- `SeleniumMarineTrafficScraper._extract_coordinates_from_api_response`
(selenium_scraper.py lines 951-1008). -/
def extractCoordsFromApi : JVal → Record → Record
  | .obj fs, r => coordsApiObj fs r
  | .arr xs, r => coordsApiList xs r
  | _, r => r

/-- One field of `SeleniumMarineTrafficScraper._update_from_json`
(selenium_scraper.py lines 1306-1308): `if json_key in json_data and not
ship_data[ship_key]: ship_data[ship_key] = json_data[json_key]`. -/
def pick (fs : List (String × JVal)) (key : String) (cur : JVal) : JVal :=
  if objHasKey fs key && !pyTruthy cur then objGet fs key else cur

/-- `SeleniumMarineTrafficScraper._update_from_json` (selenium_scraper.py
lines 1287-1309).  The source loops over its fixed mapping and mutates the
shared dict; since every mapping entry targets a distinct ship field, the
loop is equivalently written as one simultaneous update. -/
def updateFromJson (fs : List (String × JVal)) (r : Record) : Record :=
  { r with
    mmsi := pick fs "mmsi" r.mmsi
    name := pick fs "shipname" r.name
    callsign := pick fs "callsign" r.callsign
    type := pick fs "shiptype" r.type
    lat := pick fs "lat" r.lat
    lon := pick fs "lon" r.lon
    speed := pick fs "speed" r.speed
    course := pick fs "course" r.course
    heading := pick fs "heading" r.heading
    draught := pick fs "draught" r.draught
    nav_status := pick fs "navstat" r.nav_status
    destination := pick fs "destination" r.destination
    timestamp := pick fs "timestamp" r.timestamp
    imo := pick fs "imo" r.imo }

/-- Leftmost match of the regex `(\d{7})`: the first position holding seven
consecutive digits (used by the IMO branches). -/
def sevenAt : List Char → Option (List Char)
  | a :: b :: c :: d :: e :: f :: g :: _ =>
    if [a, b, c, d, e, f, g].all Char.isDigit then some [a, b, c, d, e, f, g] else none
  | _ => none

/-- Scan for the leftmost `(\d{7})` match. -/
def findSeven : List Char → Option String
  | [] => none
  | c :: t =>
    match sevenAt (c :: t) with
    | some d => some (String.mk d)
    | none => findSeven t

/-- Match of the regex `([+-]?\d+\.?\d*)` anchored at the head of the list:
optional sign, at least one digit, optional decimal point with further
digits (greedy, as `re` matches it). -/
def numAt (cs : List Char) : Option (List Char) :=
  let sr : List Char × List Char :=
    match cs with
    | c :: t => if c == '+' || c == '-' then ([c], t) else ([], cs)
    | [] => ([], [])
  let (d1, r1) := takeDigits sr.2
  if d1.isEmpty then none
  else
    match r1 with
    | '.' :: r2 =>
      let (d2, _) := takeDigits r2
      some (sr.1 ++ d1 ++ '.' :: d2)
    | _ => some (sr.1 ++ d1)

/-- Leftmost match of `([+-]?\d+\.?\d*)` (`re.search` semantics). -/
def scanNum : List Char → Option (List Char)
  | [] => none
  | c :: t =>
    match numAt (c :: t) with
    | some m => some m
    | none => scanNum t

/-- Character class of the regex `[0-9.]`. -/
def isDotDigit (c : Char) : Bool :=
  c.isDigit || c == '.'

/-- Leftmost maximal match of `([0-9.]+)` (`re.search` semantics). -/
def scanDotDigits : List Char → Option (List Char)
  | [] => none
  | c :: t =>
    if isDotDigit c then some (c :: t.takeWhile isDotDigit) else scanDotDigits t

/-- Placeholder strings rejected by the text extractors
(selenium_scraper.py lines 314, 319, 340, ...); the empty string is rejected
separately through Python truthiness of `value`. -/
def placeholderStrings : List String :=
  ["unknown", "n/a", "-", "upgrade to unlock"]

/-- The `elif` chain of `SeleniumMarineTrafficScraper._extract_from_all_text`
applied to one already-split and stripped `label: value` pair
(selenium_scraper.py lines 307-350).  `key` is already lowercased by the
caller.  Coordinate values are parsed with `([+-]?\d+\.?\d*)` and stored
without any range validation; text values pass the placeholder filter. -/
def allTextKV (key value : String) (r : Record) : Record :=
  if hasSub key "imo" && !pyTruthy r.imo then
    match findSeven value.data with
    | some d => { r with imo := .str d }
    | none => r
  else if (hasSub key "call" || hasSub key "sign") && !pyTruthy r.callsign then
    if !(value == "") && !(placeholderStrings.contains (pyLower value)) then
      { r with callsign := .str value }
    else r
  else if hasSub key "type" && !pyTruthy r.type then
    if !(value == "") && !(placeholderStrings.contains (pyLower value)) then
      { r with type := .str value }
    else r
  else if (hasSub key "lat" || hasSub key "latitude") && !pyTruthy r.lat then
    match scanNum value.data with
    | some m =>
      match parseDecimal m with
      | some q => { r with lat := .num q }
      | none => r
    | none => r
  else if (hasSub key "lon" || hasSub key "longitude") && !pyTruthy r.lon then
    match scanNum value.data with
    | some m =>
      match parseDecimal m with
      | some q => { r with lon := .num q }
      | none => r
    | none => r
  else if hasSub key "destination" && !pyTruthy r.destination then
    if !(value == "") && !(placeholderStrings.contains (pyLower value)) then
      { r with destination := .str value }
    else r
  else if (hasSub key "draught" || hasSub key "draft") && !pyTruthy r.draught then
    match scanDotDigits value.data with
    | some m =>
      match parseDecimal m with
      | some q => { r with draught := .num q }
      | none => r
    | none => r
  else r

/-- Python `text.split('\n')`. -/
def splitOnNl : List Char → List (List Char)
  | [] => [[]]
  | '\n' :: t => [] :: splitOnNl t
  | c :: t =>
    match splitOnNl t with
    | [] => [[c]]
    | h :: rest => (c :: h) :: rest

/-- One iteration of the line loop of `_extract_from_all_text`
(selenium_scraper.py lines 294-304): strip the line, skip it when empty or
colon-free, otherwise split at the first colon into a lowercased stripped
label and a stripped value. -/
def allTextLine (line : List Char) (r : Record) : Record :=
  let l := trimChars line
  if l.isEmpty then r
  else
    match splitAtColon l with
    | none => r
    | some (k, v) =>
      allTextKV (String.mk (lowerChars (trimChars k))) (String.mk (trimChars v)) r

/-- `SeleniumMarineTrafficScraper._extract_from_all_text`
(selenium_scraper.py lines 285-353).  The body text read from the browser is
the function's one raising operation; the surrounding `try`/`except` turns
that failure into a no-op, which the `Except` input models. -/
def extractFromAllText (body : Except String String) (r : Record) : Record :=
  match body with
  | .error _ => r
  | .ok t => (splitOnNl t.data).foldl (fun acc l => allTextLine l acc) r

/-- First candidate inside the closed interval, as the pattern loops of
`_extract_position_data` accept it (out-of-range matches are skipped and
the next pattern is tried). -/
def firstInRange (lo hi : ℚ) : List ℚ → Option ℚ
  | [] => none
  | q :: rest => if lo ≤ q ∧ q ≤ hi then some q else firstInRange lo hi rest

/-- Latitude portion of `SeleniumMarineTrafficScraper._extract_position_data`
(selenium_scraper.py lines 498-515): guarded by truthiness of `lat` and by
the `_coordinates_from_api` marker; the first candidate within [-90, 90] is
stored, anything else is dropped (never clamped).  The regex scan over the
page text is abstracted into the candidate list (the floated `group(1)`
values in pattern order). -/
def posLatStep (latC : List ℚ) (r : Record) : Record :=
  if !pyTruthy r.lat && !pyTruthy r.coordsApi then
    match firstInRange (-90) 90 latC with
    | some q => { r with lat := .num q }
    | none => r
  else r

/-- Longitude portion of `_extract_position_data` (lines 517-534), with the
[-180, 180] validation. -/
def posLonStep (lonC : List ℚ) (r : Record) : Record :=
  if !pyTruthy r.lon && !pyTruthy r.coordsApi then
    match firstInRange (-180) 180 lonC with
    | some q => { r with lon := .num q }
    | none => r
  else r

/-- Speed portion of `_extract_position_data` (lines 537-551): first floated
match wins, with no range validation. -/
def posSpeedStep (spC : List ℚ) (r : Record) : Record :=
  if !pyTruthy r.speed then
    match spC.head? with
    | some q => { r with speed := .num q }
    | none => r
  else r

/-- Course portion of `_extract_position_data` (lines 554-568). -/
def posCourseStep (crsC : List ℚ) (r : Record) : Record :=
  if !pyTruthy r.course then
    match crsC.head? with
    | some q => { r with course := .num q }
    | none => r
  else r

/-- Heading portion of `_extract_position_data` (lines 571-585). -/
def posHeadingStep (hdC : List ℚ) (r : Record) : Record :=
  if !pyTruthy r.heading then
    match hdC.head? with
    | some q => { r with heading := .num q }
    | none => r
  else r

/-- The page-text portion of `_extract_position_data` (selenium_scraper.py
lines 491-585), in source order; the trailing element/map sub-extractors
(lines 587-591) read further evidence sources and are modelled separately. -/
def extractPositionText (latC lonC spC crsC hdC : List ℚ) (r : Record) : Record :=
  posHeadingStep hdC (posCourseStep crsC (posSpeedStep spC (posLonStep lonC (posLatStep latC r))))

/-- One captured network response of the VesselFinder scraper: the request
URL and the JSON-decoded body.  `error` stands for any of the per-entry
failure modes of vesselfinder_scraper.py lines 323-336 (missing request id,
`Network.getResponseBody` failure, empty body, `json.JSONDecodeError`), all
of which contribute nothing. -/
structure NetLog where
  url : String
  body : Except String JVal

/-- URL keyword filter of `_extract_from_network_requests`
(vesselfinder_scraper.py line 320). -/
def vfKeywordHit (url : String) : Bool :=
  ["vessel", "ship", "ais", "position", "track"].any (fun k => hasSub (pyLower url) k)

/-- Processing of one performance-log entry by
`VesselFinderScraper._extract_from_network_requests` (vesselfinder_scraper.py
lines 308-339). -/
def vfNetLogStep (log : NetLog) (r : Record) : Record :=
  if vfKeywordHit log.url then
    match log.body with
    | .ok j => parseApiResponse j r
    | .error _ => r
  else r

/-- `VesselFinderScraper._extract_from_network_requests`
(vesselfinder_scraper.py lines 303-342).  The outer `Except` is the
`driver.get_log('performance')` call whose failure the function-level
`except` turns into a no-op; each entry is itself `Except`-guarded (a
malformed entry hits the inner `except Exception: continue`). -/
def vfExtractFromNetworkRequests
    (logs : Except String (List (Except String NetLog))) (r : Record) : Record :=
  match logs with
  | .error _ => r
  | .ok ls =>
    ls.foldl
      (fun acc e =>
        match e with
        | .error _ => acc
        | .ok log => vfNetLogStep log acc)
      r

/-- Python `url.endswith(suffix)`. -/
def strEndsWith (s sfx : String) : Bool :=
  List.isSuffixOf sfx.data s.data

/-- `SeleniumMarineTrafficScraper._parse_coordinate_text`
(selenium_scraper.py lines 684-718), abstracted over the regex scan: the
candidate list holds the floated group pairs in pattern order.  The first
pair inside both coordinate ranges ends the loop (`break`); it is stored
only when the `_coordinates_from_api` marker is unset, each coordinate
guarded by its own truthiness check; out-of-range pairs fall through to the
next pattern. -/
def parseCoordinateText (cands : List (ℚ × ℚ)) (r : Record) : Record :=
  match cands with
  | [] => r
  | (la, lo) :: rest =>
    if ((-90 : ℚ) ≤ la ∧ la ≤ 90) ∧ ((-180 : ℚ) ≤ lo ∧ lo ≤ 180) then
      if !pyTruthy r.coordsApi then
        let r1 := if !pyTruthy r.lat then { r with lat := .num la } else r
        if !pyTruthy r1.lon then { r1 with lon := .num lo } else r1
      else r
    else parseCoordinateText rest r

/-- `_try_direct_api_calls` (selenium_scraper.py lines 1010-1113): the ship
id discovery and the in-browser fetch (or its direct-navigation fallback)
are environment input; when a position API response was obtained (lines
1077-1079, 1094-1098) it is fed to the same unguarded coordinate extractor,
otherwise nothing changes. -/
def tryDirectApiCalls (direct : Option JVal) (r : Record) : Record :=
  match direct with
  | some j => extractCoordsFromApi j r
  | none => r

/-- URL keyword filter of the MarineTraffic network extractor
(selenium_scraper.py line 905). -/
def selKeywordHit (url : String) : Bool :=
  ["position", "vessel", "ship", "coordinates"].any (fun k => hasSub (pyLower url) k)

/-- One captured network response of the MarineTraffic scraper: the request
URL and the JSON decode of its body.  `error` is a body that was retrieved
but is not JSON (`json.JSONDecodeError`, selenium_scraper.py line 932),
carrying the coordinate pairs `_parse_coordinate_text` would find in it;
entries whose body could not be fetched at all are `Except`-wrapped one
level up (the `except ... continue` at lines 938-943). -/
structure SelNetLog where
  url : String
  body : Except (List (ℚ × ℚ)) JVal

/-- The log loop of `SeleniumMarineTrafficScraper._extract_from_network_requests`
(selenium_scraper.py lines 893-946) followed by `_try_direct_api_calls`
(line 946).  A successfully decoded body on a keyword-matching URL goes to
`_extract_coordinates_from_api_response`; if both coordinates are then
truthy, the `_coordinates_from_api` marker is set and the function returns
early (lines 926-930), skipping the remaining entries and the direct API
calls; a non-JSON body goes to `_parse_coordinate_text` unless the URL ends
in `.svg` (lines 932-936). -/
def selNetLoop (direct : Option JVal) : List (Except String SelNetLog) → Record → Record
  | [], r => tryDirectApiCalls direct r
  | e :: rest, r =>
    match e with
    | .error _ => selNetLoop direct rest r
    | .ok log =>
      if selKeywordHit log.url then
        match log.body with
        | .ok j =>
          let r' := extractCoordsFromApi j r
          if pyTruthy r'.lat && pyTruthy r'.lon then { r' with coordsApi := .bool true }
          else selNetLoop direct rest r'
        | .error pairs =>
          if strEndsWith log.url ".svg" then selNetLoop direct rest r
          else selNetLoop direct rest (parseCoordinateText pairs r)
      else selNetLoop direct rest r

/-- `SeleniumMarineTrafficScraper._extract_from_network_requests`
(selenium_scraper.py lines 887-949).  When `get_log` itself raises, the
function-level `except` fires and the direct API calls are skipped too. -/
def selExtractFromNetworkRequests
    (logs : Except String (List (Except String SelNetLog))) (direct : Option JVal)
    (r : Record) : Record :=
  match logs with
  | .error _ => r
  | .ok ls => selNetLoop direct ls r

/-- Outcome of the `requests.post` call of a job-trigger dispatch: a
response with status and body text, a `requests.exceptions.Timeout`, or any
other exception. -/
inductive HttpResp where
  | resp (status : ℕ) (text : String)
  | timeout
  | exc (msg : String)

/-- Result dict of `MarineTrafficScraperTrigger.trigger_scraper`. -/
structure TriggerOutcome where
  success : Bool
  message : String
  details : Option String

/-- `MarineTrafficScraperTrigger.trigger_scraper`
(django_github_integration.py lines 30-96): missing configuration fails
early; a 204 response succeeds; any other status fails with the response
body in `details`; timeouts and other exceptions fail with no body. -/
def triggerScraper (configured : Bool) (resp : HttpResp) (mmsi : String) : TriggerOutcome :=
  if !configured then ⟨false, "GitHub configuration missing", none⟩
  else
    match resp with
    | .resp status text =>
      if status == 204 then
        ⟨true, "Scraper triggered successfully for MMSI: " ++ mmsi, none⟩
      else ⟨false, "GitHub API error: " ++ toString status, some text⟩
    | .timeout => ⟨false, "Request timeout", none⟩
    | .exc m => ⟨false, "Error: " ++ m, none⟩

/-- `trigger_marine_traffic_scraper` (trigger_github_action.py lines
12-70): the boolean result plus the diagnostic text printed on failure
(the non-204 branch prints the response body, line 65). -/
def triggerMarineTrafficScraper (resp : HttpResp) : Bool × Option String :=
  match resp with
  | .resp status text =>
    if status == 204 then (true, none) else (false, some text)
  | .timeout => (false, none)
  | .exc _ => (false, none)

/-- A browser navigation performed by the VesselFinder scraper, or the
extraction phase that follows the vessel page load (abstracted, since the
identifier claims only concern what happens before it). -/
inductive PageAction where
  | load (url : String)
  | extract

/-- Trace of one `get_vessel_details` invocation: the page actions
performed, and the exception raised (`none` on the success path). -/
structure VFRun where
  actions : List PageAction
  fail : Option String

/-- The VesselFinder login URL (vesselfinder_scraper.py line 107). -/
def vfLoginUrl : String := "https://www.vesselfinder.com/login"

/-- Vessel-details URL for an MMSI (vesselfinder_scraper.py line 181). -/
def vesselUrlMmsi (m : String) : String :=
  "https://www.vesselfinder.com/pro/map#vessel-details?imo=0&mmsi=" ++ m

/-- Vessel-details URL for an IMO (vesselfinder_scraper.py line 185). -/
def vesselUrlImo (i : String) : String :=
  "https://www.vesselfinder.com/pro/map#vessel-details?imo=" ++ i ++ "&mmsi=0"

/-- Python truthiness of an optional string argument (`None` and `""` are
falsy). -/
def optTruthy : Option String → Bool
  | none => false
  | some s => !(s == "")

/-- Identifier cleaning of `get_vessel_details` (vesselfinder_scraper.py
lines 174-177): `if mmsi: mmsi = str(mmsi).strip('"').strip()`. -/
def cleanOpt : Option String → Option String
  | none => none
  | some s => if s == "" then some s else some (pyStrip (stripQuotes s))

/-- Control flow of `VesselFinderScraper.get_vessel_details`
(vesselfinder_scraper.py lines 153-219) up to the vessel page load.  The
driver exists (the constructor ran `setup_driver`).  When not yet logged
in, `login()` first navigates to the login page (line 107); its success is
environment input.  Then the identifiers are cleaned and the URL chosen;
with neither identifier truthy, `ValueError` is raised (line 189) before
any vessel page load.  On success the vessel page is loaded and extraction
follows (abstracted as one action). -/
def getVesselDetails (loggedIn loginOk : Bool) (mmsi imo : Option String) : VFRun :=
  let la := if loggedIn then ([] : List PageAction) else [.load vfLoginUrl]
  if !loggedIn && !loginOk then ⟨la, some "Failed to login to VesselFinder"⟩
  else
    let m := cleanOpt mmsi
    let i := cleanOpt imo
    if optTruthy m then
      ⟨la ++ [.load (vesselUrlMmsi (m.getD "")), .extract], none⟩
    else if optTruthy i then
      ⟨la ++ [.load (vesselUrlImo (i.getD "")), .extract], none⟩
    else ⟨la, some "Either MMSI or IMO must be provided"⟩

/-- `main` of vesselfinder_action_scraper.py (lines 83-166): with neither
`--mmsi` nor `--imo` the process exits 1 before anything else (lines
95-97); then the credentials check (lines 105-107); then the scrape runs on
a fresh, not-yet-logged-in scraper, any exception exiting 1.  Result: exit
code and the page actions performed. -/
def vfActionMain (mmsi imo : Option String) (credsOk loginOk : Bool) : ℕ × List PageAction :=
  if !optTruthy mmsi && !optTruthy imo then (1, [])
  else if !credsOk then (1, [])
  else
    let run := getVesselDetails false loginOk mmsi imo
    match run.fail with
    | some _ => (1, run.actions)
    | none => (0, run.actions)

/-- `fetch_datadocked_data` (github_action_scraper.py lines 22-52): only a
status-200 response with a truthy JSON body passing the
detail-or-triple check is returned; every other path (non-200 status, empty
body, failed JSON decode, `.get` on a non-dict body — all caught by the
enclosing `except`) yields `None`. -/
def fetchDatadockedData (status : ℕ) (body : Except String JVal) : Option JVal :=
  if status == 200 then
    match body with
    | .error _ => none
    | .ok j =>
      if pyTruthy j then
        match j with
        | .obj fs =>
          if pyTruthy (objGet fs "detail")
              || (pyTruthy (objGet fs "mmsi") && pyTruthy (objGet fs "latitude")
                  && pyTruthy (objGet fs "longitude")) then
            some j
          else none
        | _ => none
      else none
  else none

/-- The acceptance predicate of `fetch_datadocked_data` on a decoded body,
written out for comparison (line 37 of github_action_scraper.py): a truthy
`detail` entry, or truthy `mmsi`, `latitude` and `longitude`. -/
def ddBodyValid : JVal → Bool
  | .obj fs =>
    pyTruthy (objGet fs "detail")
      || (pyTruthy (objGet fs "mmsi") && pyTruthy (objGet fs "latitude")
          && pyTruthy (objGet fs "longitude"))
  | _ => false

/-- `has_valid_data` (github_action_scraper.py lines 115-125).  An
`AttributeError` from calling `.get` on a truthy non-dict value propagates
(`error`), since this function has no handler. -/
def hasValidData (j : JVal) : Except String Bool :=
  if !pyTruthy j then .ok false
  else
    match j with
    | .obj fs =>
      let mmsi := objGet fs "mmsi"
      let lat := if pyTruthy (objGet fs "latitude") then objGet fs "latitude" else objGet fs "lat"
      let lon := if pyTruthy (objGet fs "longitude") then objGet fs "longitude" else objGet fs "lon"
      .ok (!isNull mmsi && !(pyStrip (pyStr mmsi) == "None") && !isNull lat && !isNull lon)
    | _ => .error "AttributeError"

/-- `data.get("detail", data)` of `push_all_data_to_posthog`
(github_action_scraper.py lines 143, 155); `.get` on a non-dict raises. -/
def ddDetail : JVal → Except String JVal
  | .obj fs => .ok (objGetD fs "detail" (.obj fs))
  | _ => .error "AttributeError"

/-- One event handed to `posthog.capture` by the push stage: the
`data_source` tag and the payload dict. -/
structure PushItem where
  source : String
  payload : JVal

/-- Datadocked branch of `push_all_data_to_posthog` (github_action_scraper.py
lines 142-151): extract the detail payload, gate it on `has_valid_data`,
and send it only when valid. -/
def pushOne (tag : String) (j : JVal) : Except String (List PushItem) :=
  match ddDetail j with
  | .error e => .error e
  | .ok det =>
    match hasValidData det with
    | .error e => .error e
    | .ok true => .ok [⟨tag, det⟩]
    | .ok false => .ok []

/-- The events attempted by `push_all_data_to_posthog`
(github_action_scraper.py lines 128-165), in source order: MarineTraffic
data is sent whenever truthy; each Datadocked payload goes through
`pushOne`.  An uncaught exception while handling the Datadocked payload
aborts the remainder (`error`). -/
def pushAllSends (mt dd ddsat : Option JVal) : Except String (List PushItem) :=
  let s1 : List PushItem :=
    match mt with
    | some j => if pyTruthy j then [⟨"MarineTraffic", j⟩] else []
    | none => []
  let e2 : Except String (List PushItem) :=
    match dd with
    | some j => if pyTruthy j then pushOne "datadocked" j else .ok []
    | none => .ok []
  match e2 with
  | .error e => .error e
  | .ok s2 =>
    let e3 : Except String (List PushItem) :=
      match ddsat with
      | some j => if pyTruthy j then pushOne "datadocked_satellite" j else .ok []
      | none => .ok []
    match e3 with
    | .error e => .error e
    | .ok s3 => .ok (s1 ++ s2 ++ s3)

/-- The property bag built for `posthog.capture` (the wall-clock timestamp
and the caller-supplied comparison id are environment data and are left
out). -/
structure PHProps where
  provider : String
  mmsi : String
  name : JVal
  callsign : JVal
  type : JVal
  lat : JVal
  lon : JVal
  speed : JVal
  course : JVal
  heading : JVal
  draught : JVal
  nav_status : JVal
  destination : JVal
  imo : JVal
  data_source : String

/-- The `lat` property of `send_to_posthog` (github_action_scraper.py line
83): `float(data.get("latitude")) if data.get("latitude") else
float(data.get("lat")) if data.get("lat") else None`; a failing `float`
raises (`none`), aborting the send. -/
def gaLatVal (fs : List (String × JVal)) : Option JVal :=
  if pyTruthy (objGet fs "latitude") then (pyFloat (objGet fs "latitude")).map JVal.num
  else if pyTruthy (objGet fs "lat") then (pyFloat (objGet fs "lat")).map JVal.num
  else some .null

/-- The `lon` property of `send_to_posthog` (line 84). -/
def gaLonVal (fs : List (String × JVal)) : Option JVal :=
  if pyTruthy (objGet fs "longitude") then (pyFloat (objGet fs "longitude")).map JVal.num
  else if pyTruthy (objGet fs "lon") then (pyFloat (objGet fs "lon")).map JVal.num
  else some .null

/-- `x if x else None` (github_action_scraper.py lines 85-88): falsy values
(including `0`, `0.0` and `""`) are sent as `None`. -/
def falsyToNull (v : JVal) : JVal :=
  if pyTruthy v then v else .null

/-- The `mmsi` property of `send_to_posthog` (github_action_scraper.py
lines 72-79): quote-stripping of truthy string values, then
`str(mmsi_value) if mmsi_value else str(data.get("mmsi", ""))`. -/
def gaMmsiStr (fs : List (String × JVal)) : String :=
  let m0 := objGet fs "mmsi"
  let m1 :=
    match m0 with
    | .str s => if pyTruthy (JVal.str s) then JVal.str (stripQuotes s) else m0
    | _ => m0
  if pyTruthy m1 then pyStr m1 else pyStr (objGetD fs "mmsi" (.str ""))

/-- Property construction of `send_to_posthog` (github_action_scraper.py
lines 55-112): `none` models the function-level `except` returning `False`
with nothing sent (a non-dict payload, or a `float` failure on the
coordinate fields). -/
def gaPosthogProps (d : JVal) (src : String) : Option PHProps :=
  match d with
  | .obj fs =>
    match gaLatVal fs, gaLonVal fs with
    | some la, some lo =>
      some
        { provider := src
          mmsi := gaMmsiStr fs
          name := objGet fs "name"
          callsign := objGet fs "callsign"
          type := if src == "MarineTraffic" then objGet fs "type" else objGet fs "typeSpecific"
          lat := la
          lon := lo
          speed := falsyToNull (objGet fs "speed")
          course := falsyToNull (objGet fs "course")
          heading := falsyToNull (objGet fs "heading")
          draught := falsyToNull (objGet fs "draught")
          nav_status :=
            if src == "MarineTraffic" then objGet fs "nav_status"
            else objGet fs "navigationalStatus"
          destination := objGetD fs "destination" (.str "")
          imo := objGet fs "imo"
          data_source := src }
    | _, _ => none
  | _ => none

/-- One numeric property of `VesselFinderScraper._send_to_posthog`
(vesselfinder_scraper.py lines 676-681): `float(v.get(k)) if v.get(k) else
None`, with a failing `float` raising. -/
def vfNumProp (fs : List (String × JVal)) (k : String) : Option JVal :=
  if pyTruthy (objGet fs k) then (pyFloat (objGet fs k)).map JVal.num else some .null

/-- Property construction of `VesselFinderScraper._send_to_posthog`
(vesselfinder_scraper.py lines 661-704). -/
def vfPosthogProps (d : JVal) : Option PHProps :=
  match d with
  | .obj fs =>
    match vfNumProp fs "lat", vfNumProp fs "lon", vfNumProp fs "speed",
        vfNumProp fs "course", vfNumProp fs "heading", vfNumProp fs "draught" with
    | some la, some lo, some sp, some co, some he, some dr =>
      some
        { provider := "vesselfinder_data"
          mmsi := pyStr (objGetD fs "mmsi" (.str ""))
          name := objGet fs "name"
          callsign := objGet fs "callsign"
          type := objGet fs "type"
          lat := la
          lon := lo
          speed := sp
          course := co
          heading := he
          draught := dr
          nav_status := objGet fs "nav_status"
          destination := objGetD fs "destination" (.str "")
          imo := objGet fs "imo"
          data_source := "vesselfinder_data" }
    | _, _, _, _, _, _ => none
  | _ => none

/-- One floated coordinate property of
`SeleniumMarineTrafficScraper.send_to_posthog` (selenium_scraper.py lines
1136-1137): `float(v) if v is not None else None` — a null check, not a
truthiness check, so 0.0 passes through as 0.0. -/
def mtNumProp (fs : List (String × JVal)) (k : String) : Option JVal :=
  if isNull (objGet fs k) then some .null
  else (pyFloat (objGet fs k)).map JVal.num

/-- `x if x is not None else None` (selenium_scraper.py lines 1138-1141):
the identity on every non-`None` value, 0 and 0.0 included. -/
def nullToNull (v : JVal) : JVal :=
  if isNull v then .null else v

/-- Property construction of `SeleniumMarineTrafficScraper.send_to_posthog`
(selenium_scraper.py lines 1115-1165): unlike the other two senders, every
numeric guard is an `is not None` check, so falsy numeric values are
emitted verbatim. -/
def mtPosthogProps (d : JVal) : Option PHProps :=
  match d with
  | .obj fs =>
    match mtNumProp fs "lat", mtNumProp fs "lon" with
    | some la, some lo =>
      some
        { provider := "MarineTraffic"
          mmsi := pyStr (objGetD fs "mmsi" (.str ""))
          name := objGet fs "name"
          callsign := objGet fs "callsign"
          type := objGet fs "type"
          lat := la
          lon := lo
          speed := nullToNull (objGet fs "speed")
          course := nullToNull (objGet fs "course")
          heading := nullToNull (objGet fs "heading")
          draught := nullToNull (objGet fs "draught")
          nav_status := objGet fs "nav_status"
          destination := objGetD fs "destination" (.str "")
          imo := objGet fs "imo"
          data_source := "selenium_scraper" }
    | _, _ => none
  | _ => none

/-- Sample Datadocked body used to exercise the fetch/validity pipeline:
an identifier with coordinates. -/
def ddSample : JVal :=
  .obj [("mmsi", .str "123456789"), ("latitude", .num 1), ("longitude", .num 2)]

/-- Sample scraped record dict with falsy numeric fields (latitude exactly 0
and speed 0). -/
def gaSample : List (String × JVal) :=
  [("mmsi", .str "123456789"), ("lat", .num 0), ("speed", .num 0)]

/-- The property bag `send_to_posthog` builds from `gaSample`. -/
def gaSampleProps : PHProps :=
  { provider := "MarineTraffic"
    mmsi := "123456789"
    name := .null
    callsign := .null
    type := .null
    lat := .null
    lon := .null
    speed := .null
    course := .null
    heading := .null
    draught := .null
    nav_status := .null
    destination := .str ""
    imo := .null
    data_source := "MarineTraffic" }

/-- The property bag `_send_to_posthog` builds from `gaSample`. -/
def vfSampleProps : PHProps :=
  { provider := "vesselfinder_data"
    mmsi := "123456789"
    name := .null
    callsign := .null
    type := .null
    lat := .null
    lon := .null
    speed := .null
    course := .null
    heading := .null
    draught := .null
    nav_status := .null
    destination := .str ""
    imo := .null
    data_source := "vesselfinder_data" }

/-- The property bag `SeleniumMarineTrafficScraper.send_to_posthog` builds
from `gaSample`: latitude 0.0 and speed 0 survive verbatim. -/
def mtSampleProps : PHProps :=
  { provider := "MarineTraffic"
    mmsi := "123456789"
    name := .null
    callsign := .null
    type := .null
    lat := .num 0
    lon := .null
    speed := .num 0
    course := .null
    heading := .null
    draught := .null
    nav_status := .null
    destination := .str ""
    imo := .null
    data_source := "selenium_scraper" }

/-- On the key `"lat"`, the `elif` chain of `_parse_api_response` lands in
the latitude branch: every earlier substring test on the literal key
computes to `false`. -/
lemma parseField_lat_key (v : JVal) (r : Record) :
    parseField "lat" v r =
      if !pyTruthy r.lat then
        if pyTruthy v then
          match pyFloat v with
          | some q => ({ r with lat := .num (if 180 < |q| then q / 1000000 else q) }, false)
          | none => (r, false)
        else ({ r with lat := .null }, false)
      else (r, false) := rfl

/-- On the key `"lon"`, the chain lands in the longitude branch. -/
lemma parseField_lon_key (v : JVal) (r : Record) :
    parseField "lon" v r =
      if !pyTruthy r.lon then
        if pyTruthy v then
          match pyFloat v with
          | some q => ({ r with lon := .num (if 180 < |q| then q / 1000000 else q) }, false)
          | none => (r, false)
        else ({ r with lon := .null }, false)
      else (r, false) := rfl

/-- On the key `"speed"`, the chain lands in the speed branch. -/
lemma parseField_speed_key (v : JVal) (r : Record) :
    parseField "speed" v r =
      if !pyTruthy r.speed then
        if pyTruthy v then
          match pyFloat v with
          | some q => ({ r with speed := .num q }, false)
          | none => (r, true)
        else ({ r with speed := .null }, false)
      else (r, false) := rfl

/-- On the key `"destination"`, the chain of `_extract_from_all_text` lands
in the destination branch with its placeholder filter. -/
lemma allTextKV_dest_key (v : String) (r : Record) :
    allTextKV "destination" v r =
      if !pyTruthy r.destination then
        if !(v == "") && !(placeholderStrings.contains (pyLower v)) then
          { r with destination := .str v }
        else r
      else r := rfl

/-- On the key `"call sign"`, the chain of `_extract_from_all_text` lands
in the callsign branch with its placeholder filter. -/
lemma allTextKV_callsign_key (v : String) (r : Record) :
    allTextKV "call sign" v r =
      if !pyTruthy r.callsign then
        if !(v == "") && !(placeholderStrings.contains (pyLower v)) then
          { r with callsign := .str v }
        else r
      else r := rfl

/-- On the key `"type"`, the chain of `_extract_from_all_text` lands in the
type branch with its placeholder filter. -/
lemma allTextKV_type_key (v : String) (r : Record) :
    allTextKV "type" v r =
      if !pyTruthy r.type then
        if !(v == "") && !(placeholderStrings.contains (pyLower v)) then
          { r with type := .str v }
        else r
      else r := rfl

/-- A mapped-field update whose current value is truthy is a no-op (the
`not ship_data[ship_field]` guard of selenium_scraper.py line 986). -/
lemma apiNumUpd_truthy (fs : List (String × JVal)) (k : String) (cur : JVal)
    (h : pyTruthy cur = true) : apiNumUpd fs k cur = cur := by
  simp [apiNumUpd, h]

/-- Same for the raw (non-numeric) mapped fields. -/
lemma apiRawUpd_truthy (fs : List (String × JVal)) (k : String) (cur : JVal)
    (h : pyTruthy cur = true) : apiRawUpd fs k cur = cur := by
  simp [apiRawUpd, h]

/-- The mapped (guarded) fields of `_extract_coordinates_from_api_response`
are exactly the guarded-loop updates, whatever the unguarded lat/lon stores
did first. -/
lemma coordsApiObj_mapped (fs : List (String × JVal)) (r : Record) :
    (coordsApiObj fs r).speed = apiNumUpd fs "speed" r.speed
    ∧ (coordsApiObj fs r).course = apiNumUpd fs "course" r.course
    ∧ (coordsApiObj fs r).heading = apiNumUpd fs "heading" r.heading
    ∧ (coordsApiObj fs r).draught = apiNumUpd fs "draught" r.draught
    ∧ (coordsApiObj fs r).nav_status = apiRawUpd fs "navigationalStatus" r.nav_status
    ∧ (coordsApiObj fs r).timestamp = apiRawUpd fs "timestamp" r.timestamp := by
  simp only [coordsApiObj]
  cases h1 : objHasKey fs "lat" <;> cases h2 : pyFloat (objGet fs "lat") <;>
    cases h3 : objHasKey fs "lon" <;> cases h4 : pyFloat (objGet fs "lon") <;>
      simp [h1, h2, h3, h4]

/-- A candidate list that avoids the closed interval has no first member in
it. -/
lemma firstInRange_eq_none (lo hi : ℚ) (cs : List ℚ)
    (h : ∀ q ∈ cs, ¬(lo ≤ q ∧ q ≤ hi)) : firstInRange lo hi cs = none := by
  induction cs with
  | nil => rfl
  | cons a t ih =>
    simp only [firstInRange]
    rw [if_neg (h a (by simp))]
    exact ih fun q hq => h q (by simp [hq])

/-- C1: corrected.  In the VesselFinder network-response parser
(`_parse_api_response`), a not-yet-set coordinate whose magnitude exceeds
180 is stored divided by 1,000,000; but the MarineTraffic network
coordinate extractor (`_extract_coordinates_from_api_response`) stores the
same candidates verbatim, without the micro-degree division. -/
theorem c1_theorem (q1 q2 : ℚ) (r : Record)
    (h1 : pyTruthy r.lat = false) (h2 : pyTruthy r.lon = false)
    (hq1 : 180 < |q1|) (hq2 : 180 < |q2|) :
    (parseApiResponse (.obj [("lat", .num q1), ("lon", .num q2)]) r).lat = .num (q1 / 1000000)
    ∧ (parseApiResponse (.obj [("lat", .num q1), ("lon", .num q2)]) r).lon = .num (q2 / 1000000)
    ∧ (extractCoordsFromApi (.obj [("lat", .num q1), ("lon", .num q2)]) r).lat = .num q1
    ∧ (extractCoordsFromApi (.obj [("lat", .num q1), ("lon", .num q2)]) r).lon = .num q2 := by
  have hne1 : q1 ≠ 0 := by
    intro h
    rw [h] at hq1
    norm_num at hq1
  have hne2 : q2 ≠ 0 := by
    intro h
    rw [h] at hq2
    norm_num at hq2
  have ht1 : pyTruthy (JVal.num q1) = true := by simp [pyTruthy, hne1]
  have ht2 : pyTruthy (JVal.num q2) = true := by simp [pyTruthy, hne2]
  have e1 : parseField "lat" (.num q1) r = ({ r with lat := .num (q1 / 1000000) }, false) := by
    rw [parseField_lat_key]
    simp [h1, ht1, pyFloat, hq1]
  have e2 : parseField "lon" (.num q2) ({ r with lat := .num (q1 / 1000000) })
      = ({ r with lat := .num (q1 / 1000000), lon := .num (q2 / 1000000) }, false) := by
    rw [parseField_lon_key]
    simp [h2, ht2, pyFloat, hq2]
  have efs : parseFields [("lat", .num q1), ("lon", .num q2)] r
      = ({ r with lat := .num (q1 / 1000000), lon := .num (q2 / 1000000) }, false) := by
    simp only [parseFields, e1, e2]
  have emain : parseApiResponse (.obj [("lat", .num q1), ("lon", .num q2)]) r
      = { r with lat := .num (q1 / 1000000), lon := .num (q2 / 1000000) } := by
    simp only [parseApiResponse, efs, parseChildren]
  refine ⟨by rw [emain], by rw [emain], ?_, ?_⟩ <;> rfl

/-- C1: counterexample to the claim as stated.  The spec's own example
payload, flowing through the MarineTraffic network coordinate extractor,
stores the raw candidate 37500000 rather than 37500000 / 1,000,000. -/
theorem c1_counterexample :
    (extractCoordsFromApi (.obj [("lat", .num 37500000), ("lon", .num (-122400000))])
        Record.init).lat = JVal.num 37500000
    ∧ (37500000 : ℚ) ≠ 37500000 / 1000000 :=
  ⟨rfl, by norm_num⟩

/-- C1: witness.  The example payload through the VesselFinder parser does
yield 37.5 / -122.4. -/
theorem c1_witness :
    (parseApiResponse (.obj [("lat", .num 37500000), ("lon", .num (-122400000))])
        Record.init).lat = JVal.num 37.5
    ∧ (parseApiResponse (.obj [("lat", .num 37500000), ("lon", .num (-122400000))])
        Record.init).lon = JVal.num (-122.4) := by
  have h := c1_theorem 37500000 (-122400000) Record.init rfl rfl
    (by rw [abs_of_pos (by norm_num)]; norm_num)
    (by rw [abs_of_neg (by norm_num)]; norm_num)
  constructor
  · rw [h.1]
    exact congrArg JVal.num (by norm_num)
  · rw [h.2.1]
    exact congrArg JVal.num (by norm_num)

/-- C2: corrected.  Where a store site carries an "already set" guard, the
guard is Python truthiness, so a field holding a truthy value is never
changed by those guarded stores — every field of the embedded-HTML-JSON
extractor (`_update_from_json`) and the mapped non-coordinate fields of
`_extract_coordinates_from_api_response`.  But first-writer-wins fails
elsewhere: a field populated with a falsy value (0, 0.0, "") is treated as
absent, and the lat/lon stores of `_extract_coordinates_from_api_response`
are entirely unguarded, so the lower-priority direct API fetch
(`_try_direct_api_calls`) overwrites even truthy network-set coordinates
(see the counterexample). -/
theorem c2_theorem (fs : List (String × JVal)) (r : Record) :
    ((pyTruthy r.mmsi = true → (updateFromJson fs r).mmsi = r.mmsi)
      ∧ (pyTruthy r.name = true → (updateFromJson fs r).name = r.name)
      ∧ (pyTruthy r.callsign = true → (updateFromJson fs r).callsign = r.callsign)
      ∧ (pyTruthy r.type = true → (updateFromJson fs r).type = r.type)
      ∧ (pyTruthy r.lat = true → (updateFromJson fs r).lat = r.lat)
      ∧ (pyTruthy r.lon = true → (updateFromJson fs r).lon = r.lon)
      ∧ (pyTruthy r.speed = true → (updateFromJson fs r).speed = r.speed)
      ∧ (pyTruthy r.course = true → (updateFromJson fs r).course = r.course)
      ∧ (pyTruthy r.heading = true → (updateFromJson fs r).heading = r.heading)
      ∧ (pyTruthy r.draught = true → (updateFromJson fs r).draught = r.draught)
      ∧ (pyTruthy r.nav_status = true → (updateFromJson fs r).nav_status = r.nav_status)
      ∧ (pyTruthy r.destination = true → (updateFromJson fs r).destination = r.destination)
      ∧ (pyTruthy r.timestamp = true → (updateFromJson fs r).timestamp = r.timestamp)
      ∧ (pyTruthy r.imo = true → (updateFromJson fs r).imo = r.imo))
    ∧ ((pyTruthy r.speed = true → (coordsApiObj fs r).speed = r.speed)
      ∧ (pyTruthy r.course = true → (coordsApiObj fs r).course = r.course)
      ∧ (pyTruthy r.heading = true → (coordsApiObj fs r).heading = r.heading)
      ∧ (pyTruthy r.draught = true → (coordsApiObj fs r).draught = r.draught)
      ∧ (pyTruthy r.nav_status = true → (coordsApiObj fs r).nav_status = r.nav_status)
      ∧ (pyTruthy r.timestamp = true → (coordsApiObj fs r).timestamp = r.timestamp))
    ∧ (∀ la lo : ℚ,
        (extractCoordsFromApi (.obj [("lat", .num la), ("lon", .num lo)]) r).lat = .num la
        ∧ (extractCoordsFromApi (.obj [("lat", .num la), ("lon", .num lo)]) r).lon = .num lo) := by
  refine ⟨⟨?_, ?_, ?_, ?_, ?_, ?_, ?_, ?_, ?_, ?_, ?_, ?_, ?_, ?_⟩,
    ⟨?_, ?_, ?_, ?_, ?_, ?_⟩, fun la lo => ⟨rfl, rfl⟩⟩
  · intro h
    simp [updateFromJson, pick, h]
  · intro h
    simp [updateFromJson, pick, h]
  · intro h
    simp [updateFromJson, pick, h]
  · intro h
    simp [updateFromJson, pick, h]
  · intro h
    simp [updateFromJson, pick, h]
  · intro h
    simp [updateFromJson, pick, h]
  · intro h
    simp [updateFromJson, pick, h]
  · intro h
    simp [updateFromJson, pick, h]
  · intro h
    simp [updateFromJson, pick, h]
  · intro h
    simp [updateFromJson, pick, h]
  · intro h
    simp [updateFromJson, pick, h]
  · intro h
    simp [updateFromJson, pick, h]
  · intro h
    simp [updateFromJson, pick, h]
  · intro h
    simp [updateFromJson, pick, h]
  · intro h
    rw [(coordsApiObj_mapped fs r).1, apiNumUpd_truthy fs "speed" r.speed h]
  · intro h
    rw [(coordsApiObj_mapped fs r).2.1, apiNumUpd_truthy fs "course" r.course h]
  · intro h
    rw [(coordsApiObj_mapped fs r).2.2.1, apiNumUpd_truthy fs "heading" r.heading h]
  · intro h
    rw [(coordsApiObj_mapped fs r).2.2.2.1, apiNumUpd_truthy fs "draught" r.draught h]
  · intro h
    rw [(coordsApiObj_mapped fs r).2.2.2.2.1,
      apiRawUpd_truthy fs "navigationalStatus" r.nav_status h]
  · intro h
    rw [(coordsApiObj_mapped fs r).2.2.2.2.2, apiRawUpd_truthy fs "timestamp" r.timestamp h]

/-- C2: counterexample to the claim as stated.  Network interception (the
highest-priority extractor) populates `lat` with the truthy value 10; since
only one coordinate was obtained, the early return of
`_extract_from_network_requests` does not fire, and the lower-priority
direct API fetch (`_try_direct_api_calls`) then overwrites it with 20
through the unguarded coordinate stores.  A falsy population (lat 0.0 at
the equator) is likewise overwritten, even by the lowest-priority
embedded-HTML-JSON extractor. -/
theorem c2_counterexample :
    (extractCoordsFromApi (.obj [("lat", .num 10)]) Record.init).lat = JVal.num 10
    ∧ pyTruthy (JVal.num 10) = true
    ∧ (selExtractFromNetworkRequests
        (.ok [.ok ⟨"https://www.marinetraffic.com/map/position", .ok (.obj [("lat", .num 10)])⟩])
        (some (.obj [("lat", .num 20), ("lon", .num 30)])) Record.init).lat = JVal.num 20
    ∧ (20 : ℚ) ≠ 10
    ∧ (updateFromJson [("lat", .num 5)]
        (extractCoordsFromApi (.obj [("lat", .num 0)]) Record.init)).lat = JVal.num 5 :=
  ⟨rfl, by decide, rfl, by norm_num, rfl⟩

/-- C2: witness.  Truthy fields survive a conflicting proposal at the
guarded store sites of both modelled extractors. -/
theorem c2_witness :
    (updateFromJson [("lat", JVal.num 9)] { Record.init with lat := .num 37.5 }).lat
      = JVal.num 37.5
    ∧ (coordsApiObj [("speed", JVal.num 9)] { Record.init with speed := .num 12.3 }).speed
      = JVal.num 12.3 :=
  ⟨(c2_theorem [("lat", JVal.num 9)] { Record.init with lat := .num 37.5 }).1.2.2.2.2.1
      (by norm_num [pyTruthy]),
   (c2_theorem [("speed", JVal.num 9)] { Record.init with speed := .num 12.3 }).2.1.1
      (by norm_num [pyTruthy])⟩

/-- C3: corrected.  The page-text position extractor
(`_extract_position_data`) does validate ranges: every latitude candidate
outside [-90, 90] and longitude candidate outside [-180, 180] is rejected
and the field stays null, never clamped.  But the `label: value` text
extractor (`_extract_from_all_text`) performs no range validation at all
(see the counterexample). -/
theorem c3_theorem (latC lonC : List ℚ) (r : Record)
    (hlat : r.lat = JVal.null) (hlon : r.lon = JVal.null)
    (h1 : ∀ q ∈ latC, ¬((-90 : ℚ) ≤ q ∧ q ≤ 90))
    (h2 : ∀ q ∈ lonC, ¬((-180 : ℚ) ≤ q ∧ q ≤ 180)) :
    (extractPositionText latC lonC [] [] [] r).lat = JVal.null
    ∧ (extractPositionText latC lonC [] [] [] r).lon = JVal.null := by
  have f1 : firstInRange (-90) 90 latC = none := firstInRange_eq_none _ _ _ h1
  have f2 : firstInRange (-180) 180 lonC = none := firstInRange_eq_none _ _ _ h2
  constructor <;>
    simp [extractPositionText, posLatStep, posLonStep, posSpeedStep, posCourseStep,
      posHeadingStep, f1, f2, hlat, hlon]

/-- C3: counterexample to the claim as stated.  The DOM-text line
`"Latitude: 1234.5"` makes `_extract_from_all_text` store a latitude of
1234.5 — far outside [-90, 90] — instead of leaving the field null. -/
theorem c3_counterexample :
    (extractFromAllText (.ok "Latitude: 1234.5") Record.init).lat = JVal.num 1234.5
    ∧ ¬(1234.5 : ℚ) ≤ 90 := by
  constructor
  · have h : (extractFromAllText (.ok "Latitude: 1234.5") Record.init).lat
        = JVal.num ((1 : ℚ) * (((1234 : ℕ) : ℚ) + ((5 : ℕ) : ℚ) / (10 : ℚ) ^ (1 : ℕ))) := rfl
    rw [h]
    exact congrArg JVal.num (by norm_num)
  · norm_num

/-- C3: witness.  Out-of-range candidates 95 and -200 are rejected by the
position extractor and the coordinates stay null. -/
theorem c3_witness :
    (extractPositionText [95] [-200] [] [] [] Record.init).lat = JVal.null
    ∧ (extractPositionText [95] [-200] [] [] [] Record.init).lon = JVal.null :=
  c3_theorem [95] [-200] Record.init rfl rfl
    (fun q hq => by rw [List.mem_singleton] at hq; subst hq; norm_num)
    (fun q hq => by rw [List.mem_singleton] at hq; subst hq; norm_num)

/-- C4: corrected.  In the line-based text extractor
(`_extract_from_all_text`), none of its free-text fields (callsign, type,
destination) ever stores a placeholder string (empty, or lowercasing to
"unknown", "n/a", "-", "upgrade to unlock") — in particular the line
`"Destination: Upgrade to unlock"` leaves `destination` null.  The filter
is not applied elsewhere: the network-JSON parser stores such strings
verbatim (see the counterexample). -/
theorem c4_theorem :
    (∀ (v : String) (r : Record),
        v = "" ∨ pyLower v ∈ placeholderStrings →
        (allTextKV "call sign" v r).callsign = r.callsign
        ∧ (allTextKV "type" v r).type = r.type
        ∧ (allTextKV "destination" v r).destination = r.destination)
    ∧ (extractFromAllText (.ok "Destination: Upgrade to unlock") Record.init).destination
        = JVal.null := by
  constructor
  · intro v r h
    refine ⟨?_, ?_, ?_⟩
    · rw [allTextKV_callsign_key]
      rcases h with h | h
      · subst h
        simp
      · simp [h]
    · rw [allTextKV_type_key]
      rcases h with h | h
      · subst h
        simp
      · simp [h]
    · rw [allTextKV_dest_key]
      rcases h with h | h
      · subst h
        simp
      · simp [h]
  · rfl

/-- C4: counterexample to the claim as stated.  A network-response payload
carrying the placeholder text stores it verbatim into `destination` via
`_parse_api_response`. -/
theorem c4_counterexample :
    (parseApiResponse (.obj [("destination", .str "Upgrade to unlock")]) Record.init).destination
      = JVal.str "Upgrade to unlock"
    ∧ pyLower "Upgrade to unlock" ∈ placeholderStrings :=
  ⟨rfl, by decide⟩

/-- C4: witness.  All three text branches of the line-based extractor drop
the placeholder. -/
theorem c4_witness :
    (allTextKV "call sign" "Upgrade to unlock" Record.init).callsign = JVal.null
    ∧ (allTextKV "type" "Upgrade to unlock" Record.init).type = JVal.null
    ∧ (allTextKV "destination" "Upgrade to unlock" Record.init).destination = JVal.null :=
  c4_theorem.1 "Upgrade to unlock" Record.init (Or.inr (by decide))

/-- C5: confirmed.  Both trigger functions report success exactly on HTTP
204, and on any other status they fail carrying the response body as the
diagnostic text. -/
theorem c5_theorem (status : ℕ) (text mmsi : String) :
    ((triggerScraper true (.resp status text) mmsi).success = true ↔ status = 204)
    ∧ (status ≠ 204 →
        (triggerScraper true (.resp status text) mmsi).success = false
        ∧ (triggerScraper true (.resp status text) mmsi).details = some text)
    ∧ ((triggerMarineTrafficScraper (.resp status text)).1 = true ↔ status = 204)
    ∧ (status ≠ 204 → (triggerMarineTrafficScraper (.resp status text)).2 = some text) := by
  by_cases h : status = 204 <;>
    simp [triggerScraper, triggerMarineTrafficScraper, h]

/-- C5: witness.  Status 204 succeeds; status 422 with body "bad mmsi"
fails and surfaces exactly "bad mmsi". -/
theorem c5_witness :
    (triggerScraper true (.resp 204 "") "677350000").success = true
    ∧ (triggerScraper true (.resp 422 "bad mmsi") "677350000").success = false
    ∧ (triggerScraper true (.resp 422 "bad mmsi") "677350000").details = some "bad mmsi" :=
  ⟨(c5_theorem 204 "" "677350000").1.mpr rfl,
   ((c5_theorem 422 "bad mmsi" "677350000").2.1 (by norm_num)).1,
   ((c5_theorem 422 "bad mmsi" "677350000").2.1 (by norm_num)).2⟩

/-- C6: corrected.  With both identifiers absent, the CLI entry point exits
1 before performing any page action, and `get_vessel_details` raises before
any vessel page load — but when the session is not yet logged in,
`get_vessel_details` first loads the VesselFinder login page (a page load
of the target site) before reaching the identifier check. -/
theorem c6_theorem :
    (∀ c l : Bool, vfActionMain none none c l = (1, []))
    ∧ (∀ lg lo : Bool,
        (getVesselDetails lg lo none none).fail.isSome = true
        ∧ (getVesselDetails lg lo none none).actions
            = (if lg then [] else [PageAction.load vfLoginUrl])) := by
  constructor
  · intro c l
    rfl
  · intro lg lo
    cases lg <;> cases lo <;> exact ⟨rfl, rfl⟩

/-- C6: counterexample to the claim as stated.  A library-level invocation
on a fresh (not logged-in) scraper with both identifiers null performs a
target-site page load (the login page) before the `ValueError` is raised. -/
theorem c6_counterexample :
    (getVesselDetails false true none none).fail = some "Either MMSI or IMO must be provided"
    ∧ (getVesselDetails false true none none).actions
        = [PageAction.load "https://www.vesselfinder.com/login"] :=
  ⟨rfl, rfl⟩

/-- C7: corrected.  The fetch accepts exactly status 200 with a truthy
(non-empty) JSON body whose `detail` entry is truthy, or whose `mmsi`,
`latitude` and `longitude` values are all truthy — key presence alone is
not enough (a falsy value such as latitude 0 is rejected; see the
counterexample).  Accepted responses are returned unchanged, everything
else yields `None`, and the separate `has_valid_data` check really does
gate every Datadocked payload before it is forwarded to the sink. -/
theorem c7_theorem :
    (∀ (status : ℕ) (j : JVal),
        (fetchDatadockedData status (.ok j)).isSome
          = (status == 200 && pyTruthy j && ddBodyValid j))
    ∧ (∀ (status : ℕ) (e : String), fetchDatadockedData status (.error e) = none)
    ∧ (∀ (status : ℕ) (j d : JVal), fetchDatadockedData status (.ok j) = some d → d = j)
    ∧ (∀ (j : JVal), pyTruthy j = true →
        ∀ (sends : List PushItem), pushAllSends none (some j) none = .ok sends →
          ∀ it ∈ sends, hasValidData it.payload = .ok true) := by
  refine ⟨?_, ?_, ?_, ?_⟩
  · intro status j
    by_cases h : status = 200
    · subst h
      cases j with
      | obj fs =>
        cases hp : pyTruthy (JVal.obj fs) <;>
          cases hd : pyTruthy (objGet fs "detail") <;>
            cases hm : pyTruthy (objGet fs "mmsi") <;>
              cases hla : pyTruthy (objGet fs "latitude") <;>
                cases hlo : pyTruthy (objGet fs "longitude") <;>
                  simp [fetchDatadockedData, ddBodyValid, hp, hd, hm, hla, hlo]
      | null => simp [fetchDatadockedData, ddBodyValid]
      | bool b => simp [fetchDatadockedData, ddBodyValid]
      | num q => simp [fetchDatadockedData, ddBodyValid]
      | str s => simp [fetchDatadockedData, ddBodyValid]
      | arr xs => simp [fetchDatadockedData, ddBodyValid]
    · simp [fetchDatadockedData, h]
  · intro status e
    by_cases h : status = 200 <;> simp [fetchDatadockedData, h]
  · intro status j d hd
    by_cases h : status = 200
    · cases j <;> simp [fetchDatadockedData, h] at hd
      exact hd.2.2.symm
    · simp [fetchDatadockedData, h] at hd
  · intro j hj sends hp it hit
    simp [pushAllSends, hj] at hp
    cases hdd : ddDetail j with
    | error e =>
      simp [pushOne, hdd] at hp
    | ok det =>
      cases hv : hasValidData det with
      | error e =>
        simp [pushOne, hdd, hv] at hp
      | ok b =>
        cases b with
        | false =>
          simp [pushOne, hdd, hv] at hp
          subst hp
          simp at hit
        | true =>
          simp [pushOne, hdd, hv] at hp
          subst hp
          simp only [List.mem_singleton] at hit
          subst hit
          exact hv

/-- C7: counterexample to the claim as stated.  A 200 response whose body
contains all three of `mmsi`, `latitude` and `longitude` is nevertheless
rejected, because the code tests truthiness and latitude 0 is falsy. -/
theorem c7_counterexample :
    fetchDatadockedData 200
        (.ok (.obj [("mmsi", .str "123456789"), ("latitude", .num 0), ("longitude", .num 10)]))
      = none
    ∧ objHasKey [("mmsi", JVal.str "123456789"), ("latitude", JVal.num 0),
        ("longitude", JVal.num 10)] "mmsi" = true
    ∧ objHasKey [("mmsi", JVal.str "123456789"), ("latitude", JVal.num 0),
        ("longitude", JVal.num 10)] "latitude" = true
    ∧ objHasKey [("mmsi", JVal.str "123456789"), ("latitude", JVal.num 0),
        ("longitude", JVal.num 10)] "longitude" = true :=
  ⟨rfl, rfl, rfl, rfl⟩

/-- C7: witness.  A truthy identifier/coordinate triple is accepted by the
fetch, and the payload the push stage forwards passes `has_valid_data`. -/
theorem c7_witness :
    (fetchDatadockedData 200 (.ok ddSample)).isSome = true
    ∧ hasValidData (PushItem.mk "datadocked" ddSample).payload = .ok true := by
  constructor
  · rw [c7_theorem.1 200 ddSample]
    decide
  · exact c7_theorem.2.2.2 ddSample rfl [⟨"datadocked", ddSample⟩] rfl
      ⟨"datadocked", ddSample⟩ (List.mem_singleton.mpr rfl)

/-- C8: corrected.  Every extractor catches its exceptions internally and
the overall scrape always continues to the remaining extractors with a
record; a failure while acquiring the evidence source (before any store)
contributes nothing, and a malformed or unreadable log entry is skipped
with the rest still processed.  But an exception raised part-way through
parsing — an unguarded `float(value)` inside `_parse_api_response` — is
caught only at the function level, keeping the field values already stored,
so a failing extractor can contribute partial fields (see the
counterexample). -/
theorem c8_theorem :
    (∀ (e : String) (r : Record), vfExtractFromNetworkRequests (.error e) r = r)
    ∧ (∀ (e : String) (r : Record), extractFromAllText (.error e) r = r)
    ∧ (∀ (e : String) (rest : List (Except String NetLog)) (r : Record),
        vfExtractFromNetworkRequests (.ok (.error e :: rest)) r
          = vfExtractFromNetworkRequests (.ok rest) r)
    ∧ (∀ (url e : String) (r : Record), vfNetLogStep ⟨url, .error e⟩ r = r)
    ∧ (∀ (fs : List (String × JVal)) (r : Record),
        (parseFields fs r).2 = true → parseApiResponse (.obj fs) r = (parseFields fs r).1) := by
  refine ⟨fun _ _ => rfl, fun _ _ => rfl, fun _ _ _ => rfl,
    fun url e r => by simp [vfNetLogStep], ?_⟩
  intro fs r h
  rcases hfs : parseFields fs r with ⟨r1, b⟩
  rw [hfs] at h
  simp at h
  subst h
  simp [parseApiResponse, hfs]

/-- C8: counterexample to the claim as stated.  A payload whose `speed`
value makes the unguarded `float` raise after `name` was already stored:
the field loop aborts (second component `true`, the exception reaching the
function-level handler), yet the returned record keeps the `name`
contributed before the raise — the failing extractor did contribute a
field value. -/
theorem c8_counterexample :
    (parseFields [("name", JVal.str "X"), ("speed", JVal.str "fast")] Record.init).2 = true
    ∧ (parseApiResponse (.obj [("name", JVal.str "X"), ("speed", JVal.str "fast")])
        Record.init).name = JVal.str "X" :=
  ⟨rfl, rfl⟩

/-- C8: witness.  The mid-parse raise is caught at the function level and
the scrape continues with the partially updated record. -/
theorem c8_witness :
    parseApiResponse (.obj [("name", JVal.str "X"), ("speed", JVal.str "fast")]) Record.init
      = (parseFields [("name", JVal.str "X"), ("speed", JVal.str "fast")] Record.init).1 :=
  c8_theorem.2.2.2.2 [("name", JVal.str "X"), ("speed", JVal.str "fast")] Record.init rfl

/-- C9: confirmed.  The extractors' "already set" guard is Python
truthiness, not a null check: a numeric field holding 0 is treated as
absent, so both the VesselFinder network parser and the page-text position
extractor overwrite it with a later candidate. -/
theorem c9_theorem (q : ℚ) (r : Record) (h0 : r.speed = JVal.num 0) (hq : q ≠ 0) :
    (parseApiResponse (.obj [("speed", .num q)]) r).speed = JVal.num q
    ∧ (extractPositionText [] [] [q] [] [] r).speed = JVal.num q := by
  have hsp : pyTruthy r.speed = false := by
    rw [h0]
    rfl
  have htv : pyTruthy (JVal.num q) = true := by simp [pyTruthy, hq]
  constructor
  · have e1 : parseField "speed" (.num q) r = ({ r with speed := .num q }, false) := by
      rw [parseField_speed_key]
      simp [hsp, htv, pyFloat]
    have efs : parseFields [("speed", .num q)] r = ({ r with speed := .num q }, false) := by
      simp only [parseFields, e1]
    simp only [parseApiResponse, efs, parseChildren]
  · simp [extractPositionText, posLatStep, posLonStep, posSpeedStep, posCourseStep,
      posHeadingStep, firstInRange, hsp]

/-- C9: witness.  A speed of exactly 0 knots is overwritten with 7 by both
modelled extractors. -/
theorem c9_witness :
    (parseApiResponse (.obj [("speed", JVal.num 7)]) { Record.init with speed := .num 0 }).speed
      = JVal.num 7
    ∧ (extractPositionText [] [] [7] [] [] { Record.init with speed := .num 0 }).speed
      = JVal.num 7 :=
  c9_theorem 7 { Record.init with speed := .num 0 } rfl (by norm_num)

/-- C10: corrected.  In the GitHub-action sender (`send_to_posthog` of
github_action_scraper.py) and the VesselFinder sender (`_send_to_posthog`),
a numeric field whose incoming value is falsy (0, 0.0 or "") is emitted as
null; but the MarineTraffic selenium sender (`send_to_posthog` of
selenium_scraper.py) guards with `is not None` instead, emitting a latitude
of exactly 0.0 and a speed of 0 verbatim (see the counterexample). -/
theorem c10_theorem :
    (∀ (fs : List (String × JVal)) (src : String) (p : PHProps),
        gaPosthogProps (.obj fs) src = some p →
        (pyTruthy (objGet fs "latitude") = false → pyTruthy (objGet fs "lat") = false →
          p.lat = JVal.null)
        ∧ (pyTruthy (objGet fs "speed") = false → p.speed = JVal.null))
    ∧ (∀ (fs : List (String × JVal)) (p : PHProps),
        vfPosthogProps (.obj fs) = some p →
        (pyTruthy (objGet fs "lat") = false → p.lat = JVal.null)
        ∧ (pyTruthy (objGet fs "speed") = false → p.speed = JVal.null))
    ∧ (∀ (fs : List (String × JVal)) (p : PHProps),
        mtPosthogProps (.obj fs) = some p →
        (objGet fs "lat" = JVal.num 0 → p.lat = JVal.num 0)
        ∧ (objGet fs "speed" = JVal.num 0 → p.speed = JVal.num 0)) := by
  refine ⟨?_, ?_, ?_⟩
  · intro fs src p h
    simp only [gaPosthogProps] at h
    cases hla : gaLatVal fs with
    | none =>
      rw [hla] at h
      cases h
    | some la =>
      rw [hla] at h
      cases hlo : gaLonVal fs with
      | none =>
        rw [hlo] at h
        cases h
      | some lo =>
        rw [hlo] at h
        cases Option.some.inj h
        constructor
        · intro h1 h2
          have : gaLatVal fs = some JVal.null := by simp [gaLatVal, h1, h2]
          have hla2 := hla.symm.trans this
          simp only [Option.some.injEq] at hla2
          simp [hla2]
        · intro hs
          simp [falsyToNull, hs]
  · intro fs p h
    simp only [vfPosthogProps] at h
    cases hla : vfNumProp fs "lat" with
    | none =>
      rw [hla] at h
      cases h
    | some la =>
      rw [hla] at h
      cases hlo : vfNumProp fs "lon" with
      | none =>
        rw [hlo] at h
        cases h
      | some lo =>
        rw [hlo] at h
        cases hsp : vfNumProp fs "speed" with
        | none =>
          rw [hsp] at h
          cases h
        | some sp =>
          rw [hsp] at h
          cases hco : vfNumProp fs "course" with
          | none =>
            rw [hco] at h
            cases h
          | some co =>
            rw [hco] at h
            cases hhe : vfNumProp fs "heading" with
            | none =>
              rw [hhe] at h
              cases h
            | some he =>
              rw [hhe] at h
              cases hdr : vfNumProp fs "draught" with
              | none =>
                rw [hdr] at h
                cases h
              | some dr =>
                rw [hdr] at h
                cases Option.some.inj h
                constructor
                · intro h1
                  have : vfNumProp fs "lat" = some JVal.null := by simp [vfNumProp, h1]
                  have hla2 := hla.symm.trans this
                  simp only [Option.some.injEq] at hla2
                  simp [hla2]
                · intro hs
                  have : vfNumProp fs "speed" = some JVal.null := by simp [vfNumProp, hs]
                  have hsp2 := hsp.symm.trans this
                  simp only [Option.some.injEq] at hsp2
                  simp [hsp2]
  · intro fs p h
    simp only [mtPosthogProps] at h
    cases hla : mtNumProp fs "lat" with
    | none =>
      rw [hla] at h
      cases h
    | some la =>
      rw [hla] at h
      cases hlo : mtNumProp fs "lon" with
      | none =>
        rw [hlo] at h
        cases h
      | some lo =>
        rw [hlo] at h
        cases Option.some.inj h
        constructor
        · intro h1
          have : mtNumProp fs "lat" = some (JVal.num 0) := by
            simp [mtNumProp, h1, isNull, pyFloat]
          have hla2 := hla.symm.trans this
          simp only [Option.some.injEq] at hla2
          simp [hla2]
        · intro hs
          simp [nullToNull, hs, isNull]

/-- C10: counterexample to the claim as stated.  The MarineTraffic selenium
sender forwards a record with latitude exactly 0.0 and speed 0 to the sink
as 0 and 0, not as null. -/
theorem c10_counterexample :
    mtPosthogProps (.obj gaSample) = some mtSampleProps
    ∧ mtSampleProps.lat = JVal.num 0
    ∧ mtSampleProps.speed = JVal.num 0 :=
  ⟨rfl, rfl, rfl⟩

/-- C10: witness.  The same record (latitude exactly 0, speed 0) is
emitted with nulls by the two falsy-guarded senders, and verbatim by the
selenium sender. -/
theorem c10_witness :
    gaSampleProps.lat = JVal.null ∧ gaSampleProps.speed = JVal.null
    ∧ vfSampleProps.lat = JVal.null ∧ vfSampleProps.speed = JVal.null
    ∧ mtSampleProps.lat = JVal.num 0 ∧ mtSampleProps.speed = JVal.num 0
    ∧ gaPosthogProps (.obj gaSample) "MarineTraffic" = some gaSampleProps
    ∧ vfPosthogProps (.obj gaSample) = some vfSampleProps
    ∧ mtPosthogProps (.obj gaSample) = some mtSampleProps := by
  have t1 := c10_theorem.1 gaSample "MarineTraffic" gaSampleProps rfl
  have t2 := c10_theorem.2.1 gaSample vfSampleProps rfl
  have t3 := c10_theorem.2.2 gaSample mtSampleProps rfl
  exact ⟨t1.1 rfl rfl, t1.2 rfl, t2.1 rfl, t2.2 rfl, t3.1 rfl, t3.2 rfl, rfl, rfl, rfl⟩

end GetData
